import Mathlib

/-!
A shallow embedding of the icinga-kubernetes pod/PVC reconciliation code and
of the Prometheus metrics ingestion pipeline (PromMetricSync.Run), together
with theorems that check the specification claims against it.

Machine integers are embedded as `Nat`/`Int` with explicit reduction modulo
2^32 where 32-bit overflow matters. Byte strings are `List Nat` with every
element below 256.
-/

set_option maxRecDepth 40000

/-! ## SHA-1 (crypto/sha1), used by both identifier paths -/

/-- Reduce a natural number to a 32-bit word. -/
def w32 (n : Nat) : Nat := n % 4294967296

/-- Rotate a 32-bit word left by `k` bits (for `n < 2^32`, `k ≤ 32`). -/
def rotl32 (k n : Nat) : Nat := (n % 2 ^ (32 - k)) * 2 ^ k + n / 2 ^ (32 - k)

/-- Bitwise complement of a 32-bit word. -/
def not32 (n : Nat) : Nat := 4294967295 - n

/-- Big-endian decomposition of a byte list into 32-bit words. -/
def bytesToWords : List Nat → List Nat
  | a :: b :: c :: d :: rest => (((a * 256 + b) * 256 + c) * 256 + d) :: bytesToWords rest
  | _ => []

/-- Extend a 16-word chunk schedule by `k` further words
(`w[i] = rotl1 (w[i-3] xor w[i-8] xor w[i-14] xor w[i-16])`). -/
def extendSchedule : List Nat → Nat → List Nat
  | ws, 0 => ws
  | ws, k + 1 =>
      let n := ws.length
      let x := rotl32 1 (Nat.xor (Nat.xor (ws.getD (n - 3) 0) (ws.getD (n - 8) 0))
        (Nat.xor (ws.getD (n - 14) 0) (ws.getD (n - 16) 0)))
      extendSchedule (ws ++ [x]) k

/-- One SHA-1 compression round: state `(a,b,c,d,e)`, round index `i`, word `wi`. -/
def sha1Round : Nat × Nat × Nat × Nat × Nat → Nat × Nat → Nat × Nat × Nat × Nat × Nat
  | (a, b, c, d, e), (i, wi) =>
    let f :=
      if i < 20 then Nat.lor (Nat.land b c) (Nat.land (not32 b) d)
      else if i < 40 then Nat.xor (Nat.xor b c) d
      else if i < 60 then Nat.lor (Nat.lor (Nat.land b c) (Nat.land b d)) (Nat.land c d)
      else Nat.xor (Nat.xor b c) d
    let k :=
      if i < 20 then 1518500249
      else if i < 40 then 1859775393
      else if i < 60 then 2400959708
      else 3395469782
    (w32 (rotl32 5 a + f + e + k + wi), a, rotl32 30 b, c, d)

/-- Process one 64-byte chunk, updating the five-word state. -/
def sha1Chunk (h : Nat × Nat × Nat × Nat × Nat) (chunk : List Nat) :
    Nat × Nat × Nat × Nat × Nat :=
  let ws := extendSchedule (bytesToWords chunk) 64
  let (a, b, c, d, e) := (((List.range 80).zip ws).foldl sha1Round h)
  (w32 (h.1 + a), w32 (h.2.1 + b), w32 (h.2.2.1 + c), w32 (h.2.2.2.1 + d), w32 (h.2.2.2.2 + e))

/-- Big-endian bytes of the 64-bit message bit length. -/
def lenBytes64 (n : Nat) : List Nat :=
  [n / 72057594037927936 % 256, n / 281474976710656 % 256, n / 1099511627776 % 256,
   n / 4294967296 % 256, n / 16777216 % 256, n / 65536 % 256, n / 256 % 256, n % 256]

/-- SHA-1 padding: append 0x80, zero bytes to 56 mod 64, then the bit length. -/
def sha1Pad (msg : List Nat) : List Nat :=
  msg ++ 128 :: List.replicate ((119 - msg.length % 64) % 64) 0 ++ lenBytes64 (msg.length * 8)

/-- Split a byte list into 64-byte chunks (structural recursion on a fuel
bound so that the definition reduces; the fuel never runs out, since each
step consumes at least one byte). -/
def chunks64Aux : Nat → List Nat → List (List Nat)
  | 0, _ => []
  | _, [] => []
  | fuel + 1, l => l.take 64 :: chunks64Aux fuel (l.drop 64)

/-- Split a byte list into 64-byte chunks. -/
def chunks64 (l : List Nat) : List (List Nat) := chunks64Aux l.length l

/-- Big-endian bytes of one 32-bit word. -/
def wordBytes (w : Nat) : List Nat := [w / 16777216 % 256, w / 65536 % 256, w / 256 % 256, w % 256]

/-- SHA-1 digest (20 bytes) of a byte list, as in Go crypto/sha1 `sha1.Sum`. -/
def sha1 (msg : List Nat) : List Nat :=
  let st := (chunks64 (sha1Pad msg)).foldl sha1Chunk
    (1732584193, 4023233417, 2562383102, 271733878, 3285377520)
  wordBytes st.1 ++ wordBytes st.2.1 ++ wordBytes st.2.2.1 ++ wordBytes st.2.2.2.1 ++
    wordBytes st.2.2.2.2

/-- Byte encoding of a string; the natural keys handled by the program are
ASCII, on which this agrees with the UTF-8 bytes the Go code hashes. -/
def strBytes (s : String) : List Nat := s.data.map Char.toNat

example : sha1 [] = [218, 57, 163, 238, 94, 107, 75, 13, 50, 85, 191, 239, 149, 96, 24, 144, 175, 216, 7, 9] := by decide

example : sha1 (strBytes "abc") = [169, 153, 62, 54, 71, 6, 129, 106, 186, 62, 37, 113, 120, 80, 194, 108, 156, 208, 216, 157] := by decide

/-- Modelled from the spec: `types.Checksum` (Identity & Hashing, not under
src/) is the fixed-width near-cryptographic hash of the natural key; per the
spec the mapping path and the metrics-attribution path (which uses
`crypto/sha1` directly in src/pkg/metrics/metrics.go) compute the same
identifier for the same logical entity, so it is the same SHA-1 digest. -/
def checksum (bytes : List Nat) : List Nat := sha1 bytes

/-- Modelled from the spec: `strcase.Snake` (not under src/), the case
normalization turning an orchestrator-reported phase such as `Running` into
the stored `running` (snake case). -/
def snake (s : String) : String :=
  s.data.foldl
    (fun acc c =>
      if c.isUpper then (if acc.isEmpty then acc else acc.push '_').push c.toLower
      else acc.push c)
    ""

/-- Rune-wise lower casing, as Go `strings.ToLower` acts on the label
names and values handled here. -/
def lowerStr (s : String) : String := String.mk (s.data.map Char.toLower)

example : lowerStr "App:Web" = "app:web" := by decide

example : snake "Running" = "running" := by decide

example : snake "FileSystemResizePending" = "file_system_resize_pending" := by decide

/-! ## Entity Mapping: Pvc.Obtain and Pvc.Relations (src/unnamed/part_000) -/

/-- Modelled from the spec: the embedded `Meta` entity populated by
`ObtainMeta` (not under src/), carrying the raw object identification. -/
structure Meta where
  namespace_ : String
  name : String
  uid : String
  deriving DecidableEq

/-- One condition of a raw PersistentVolumeClaim object (timestamps in
milliseconds since epoch, as `types.UnixMilli` stores them). -/
structure K8sPvcCondition where
  type_ : String
  status : String
  lastProbe : Int
  lastTransition : Int
  reason : String
  message : String
  deriving DecidableEq

/-- A raw PersistentVolumeClaim object as `Pvc.Obtain` reads it. The labels
are the key/value pairs of the object's label map, listed in the order one
Go map iteration yields them (that order is not determined by the object). -/
structure K8sPvc where
  namespace_ : String
  name : String
  uid : String
  phase : String
  volumeName : String
  volumeMode : Option String
  storageClassName : Option String
  conditions : List K8sPvcCondition
  labels : List (String × String)
  deriving DecidableEq

/-- Row of the `label` dictionary table. -/
structure Label where
  id : List Nat
  name : String
  value : String
  deriving DecidableEq

/-- Row of the `pvc_condition` table. -/
structure PvcCondition where
  pvcId : List Nat
  type_ : String
  status : String
  lastProbe : Int
  lastTransition : Int
  reason : String
  message : String
  deriving DecidableEq

/-- Row of the `pvc_label` association table. -/
structure PvcLabel where
  pvcId : List Nat
  labelId : List Nat
  deriving DecidableEq

/-- The primary PersistentVolumeClaim entity (`Pvc` in part_000). -/
structure Pvc where
  meta : Meta
  id : List Nat
  phase : String
  volumeName : String
  volumeMode : String
  storageClass : String
  conditions : List PvcCondition
  labels : List Label
  pvcLabels : List PvcLabel
  deriving DecidableEq

/-- `Pvc.Obtain` from part_000 lines 248-289, translated branch for branch.
The Go code guards the dereference of `pvc.Spec.StorageClassName` with
`pvc.Spec.VolumeMode != nil` (lines 261-263); the case in which that guard
passes while `StorageClassName` is nil is the nil-pointer dereference, which
this embedding returns as `none`. All other inputs yield `some` entity. -/
def Pvc.obtain (k : K8sPvc) : Option Pvc :=
  let pid := checksum (strBytes (k.namespace_ ++ "/" ++ k.name))
  let conds := k.conditions.map fun c =>
    { pvcId := pid, type_ := snake c.type_, status := c.status, lastProbe := c.lastProbe,
      lastTransition := c.lastTransition, reason := c.reason, message := c.message : PvcCondition }
  let labelRows := k.labels.map fun nv =>
    { id := checksum (strBytes (lowerStr (nv.1 ++ ":" ++ nv.2))), name := nv.1, value := nv.2 : Label }
  let pvcLabelRows := k.labels.map fun nv =>
    { pvcId := pid, labelId := checksum (strBytes (lowerStr (nv.1 ++ ":" ++ nv.2))) : PvcLabel }
  match k.volumeMode, k.storageClassName with
  | some vm, some sc =>
      some { meta := { namespace_ := k.namespace_, name := k.name, uid := k.uid },
             id := pid, phase := snake k.phase, volumeName := k.volumeName,
             volumeMode := vm, storageClass := sc,
             conditions := conds, labels := labelRows, pvcLabels := pvcLabelRows }
  | some _, none => none
  | none, _ =>
      some { meta := { namespace_ := k.namespace_, name := k.name, uid := k.uid },
             id := pid, phase := snake k.phase, volumeName := k.volumeName,
             volumeMode := "", storageClass := "",
             conditions := conds, labels := labelRows, pvcLabels := pvcLabelRows }

/-- One dependent relation set as `Pvc.Relations` declares it: the rows and
the declared foreign-key column. -/
inductive RelationDecl where
  | conditions (rows : List PvcCondition) (fkColumn : String)
  | labels (rows : List Label) (fkColumn : String)
  | pvcLabels (rows : List PvcLabel) (fkColumn : String)
  deriving DecidableEq

/-- `Pvc.Relations` from part_000 lines 291-306: conditions and label
associations under foreign key `pvc_id`, the label dictionary under its own
`value` column (the source comments this as a hack to not delete labels). -/
def Pvc.relations (p : Pvc) : List RelationDecl :=
  [RelationDecl.conditions p.conditions "pvc_id",
   RelationDecl.labels p.labels "value",
   RelationDecl.pvcLabels p.pvcLabels "pvc_id"]

/-- The dependent-relation tables a PVC resync touches. -/
structure PvcRelStore where
  pvcConditions : List PvcCondition
  labels : List Label
  pvcLabels : List PvcLabel
  deriving DecidableEq

/-- Modelled from the spec: the replace-by-foreign-key step of the database
layer (not under src/) deletes every row whose content in the declared
foreign-key column equals the syncing entity's identifier, then inserts the
current row set. -/
def replaceByFk {α : Type} (fkOf : α → List Nat) (parentId : List Nat)
    (old new : List α) : List α :=
  old.filter (fun r => !(fkOf r == parentId)) ++ new

/-- A PVC resync of the dependent relations of `Pvc.Relations`, applying the
replace-by-foreign-key step to each declared relation: `pvc_condition` and
`pvc_label` under column `pvc_id` (whose content is the row's `pvcId`), the
`label` dictionary under its own `value` column (whose content is the row's
`value`, compared against the entity identifier per the declared key). -/
def pvcSyncRelations (p : Pvc) (st : PvcRelStore) : PvcRelStore :=
  { pvcConditions := replaceByFk PvcCondition.pvcId p.id st.pvcConditions p.conditions,
    labels := replaceByFk (fun l => strBytes l.value) p.id st.labels p.labels,
    pvcLabels := replaceByFk PvcLabel.pvcId p.id st.pvcLabels p.pvcLabels }

/-! ## Metrics Ingestion Pipeline: PromMetricSync.Run (src/pkg/metrics/metrics.go) -/

/-- A Prometheus query descriptor (`PromQuery` in metrics.go): metric
category, query expression, and optional disambiguating label name. -/
structure PromQuery where
  metricCategory : String
  query : String
  nameLabel : String
  deriving DecidableEq

/-- A sample value. The float64 payload is carried opaquely as its bit
pattern; the only inspection the code performs is the test
`res.Value.String() == "NaN"`, embedded as the `isNaN` flag. -/
structure PromValue where
  isNaN : Bool
  bits : Int
  deriving DecidableEq

/-- One series of the instant vector a query returns: the label set (Go map
indexing yields the empty string for a missing label, so labels are a total
function), the value and the sample timestamp in nanoseconds
(`res.Timestamp.UnixNano()`). -/
structure Sample where
  metric : String → String
  value : PromValue
  timestampNs : Int

/-- Row of the `prometheus_cluster_metric` table. -/
structure PrometheusClusterMetric where
  clusterId : List Nat
  timestamp : Int
  category : String
  name : String
  value : PromValue
  deriving DecidableEq

/-- Row of the `prometheus_node_metric` table. -/
structure PrometheusNodeMetric where
  nodeId : List Nat
  timestamp : Int
  category : String
  name : String
  value : PromValue
  deriving DecidableEq

/-- Row of the `prometheus_pod_metric` table. -/
structure PrometheusPodMetric where
  podId : List Nat
  timestamp : Int
  category : String
  name : String
  value : PromValue
  deriving DecidableEq

/-- Row of the `prometheus_container_metric` table. -/
structure PrometheusContainerMetric where
  containerId : List Nat
  timestamp : Int
  category : String
  name : String
  value : PromValue
  deriving DecidableEq

/-- The timestamp stored with every metric row:
`(res.Timestamp.UnixNano() - res.Timestamp.UnixNano()%(60*1000000000)) / 1000000`,
with the Go `%` and `/` on int64 being truncated remainder and quotient. -/
def truncTimestampMs (tNs : Int) : Int :=
  (tNs - Int.tmod tNs 60000000000).tdiv 1000000

/-- The optional disambiguating name stored with a record: the value of the
query's name label if one is configured, the empty string otherwise. -/
def nameOf (q : PromQuery) (s : Sample) : String :=
  if q.nameLabel != "" then s.metric q.nameLabel else ""

/-- Per-series body of the cluster poller loop (metrics.go lines 349-375):
skip NaN values; the cluster id is the SHA-1 digest of the empty string. -/
def emitCluster (q : PromQuery) (s : Sample) : Option PrometheusClusterMetric :=
  if s.value.isNaN then none
  else
    some { clusterId := sha1 (strBytes ""),
           timestamp := truncTimestampMs s.timestampNs,
           category := q.metricCategory, name := nameOf q s, value := s.value }

/-- Per-series body of the node poller loop (metrics.go lines 407-439):
skip NaN values; the node name is the `node` label, falling back to the
`instance` label when `node` is empty, and the series is emitted whether or
not either label is present. -/
def emitNode (q : PromQuery) (s : Sample) : Option PrometheusNodeMetric :=
  if s.value.isNaN then none
  else
    let nodeName := if s.metric "node" == "" then s.metric "instance" else s.metric "node"
    some { nodeId := sha1 (strBytes nodeName),
           timestamp := truncTimestampMs s.timestampNs,
           category := q.metricCategory, name := nameOf q s, value := s.value }

/-- Per-series body of the pod poller loop (metrics.go lines 471-501):
skip NaN values and series whose `pod` label is empty; the pod id hashes
`namespace/pod`. -/
def emitPod (q : PromQuery) (s : Sample) : Option PrometheusPodMetric :=
  if s.value.isNaN then none
  else if s.metric "pod" == "" then none
  else
    some { podId := sha1 (strBytes (s.metric "namespace" ++ "/" ++ s.metric "pod")),
           timestamp := truncTimestampMs s.timestampNs,
           category := q.metricCategory, name := nameOf q s, value := s.value }

/-- Per-series body of the container poller loop (metrics.go lines 533-559):
skip NaN values; the container id hashes `namespace/pod/container` with no
check that any of the three labels is present. -/
def emitContainer (q : PromQuery) (s : Sample) : Option PrometheusContainerMetric :=
  if s.value.isNaN then none
  else
    some { containerId :=
             sha1 (strBytes
               (s.metric "namespace" ++ "/" ++ s.metric "pod" ++ "/" ++ s.metric "container")),
           timestamp := truncTimestampMs s.timestampNs,
           category := q.metricCategory, name := nameOf q s, value := s.value }

/-- All records one cluster poll cycle forwards to the upsert channel. -/
def processCluster (q : PromQuery) (samples : List Sample) : List PrometheusClusterMetric :=
  samples.filterMap (emitCluster q)

/-- All records one node poll cycle forwards to the upsert channel. -/
def processNode (q : PromQuery) (samples : List Sample) : List PrometheusNodeMetric :=
  samples.filterMap (emitNode q)

/-- All records one pod poll cycle forwards to the upsert channel. -/
def processPod (q : PromQuery) (samples : List Sample) : List PrometheusPodMetric :=
  samples.filterMap (emitPod q)

/-- All records one container poll cycle forwards to the upsert channel. -/
def processContainer (q : PromQuery) (samples : List Sample) : List PrometheusContainerMetric :=
  samples.filterMap (emitContainer q)

/-- Outcome of the Prometheus query a poller iteration begins with: an
error, a nil result, or an instant vector (possibly empty). -/
inductive QueryOutcome where
  | failed (e : String)
  | nilResult
  | vector (samples : List Sample)

/-- How a poller loop iteration ends: returning an error, re-querying
immediately via `continue`, or the final select that waits for the 55-second
timer or for cancellation, whichever comes first. -/
inductive IterEnd where
  | queryError (e : String)
  | retryNoWait
  | sleepOrCancel (seconds : Nat)
  deriving DecidableEq

/-- What one poller loop iteration emits and how it ends. -/
structure IterResult (R : Type) where
  emitted : List R
  ending : IterEnd

/-- One iteration of a poller task loop (the identical structure at
metrics.go lines 331-383, 389-447, 453-509 and 515-567), parametrized by the
per-cycle record processing of the granularity: a query error returns it and
ends the task; a nil result prints and `continue`s straight to the next
query; a vector is processed, its records are sent, and the iteration ends
in the select on the 55-second timer and cancellation. -/
def pollIteration {R : Type} (process : List Sample → List R) :
    QueryOutcome → IterResult R
  | QueryOutcome.failed e => { emitted := [], ending := IterEnd.queryError e }
  | QueryOutcome.nilResult => { emitted := [], ending := IterEnd.retryNoWait }
  | QueryOutcome.vector ss => { emitted := process ss, ending := IterEnd.sleepOrCancel 55 }

/-- The upsert key of a pod metric row: `(pod_id, timestamp, category, name)`
per the `prometheus_pod_metric` upsert statement. -/
def podMetricKey (r : PrometheusPodMetric) : List Nat × Int × String × String :=
  (r.podId, r.timestamp, r.category, r.name)

/-! ## Resource Reconciler: PodSync (src/unnamed/part_000 lines 21-205) -/

/-- Row of the `pod` table. -/
structure PodRow where
  namespace_ : String
  name : String
  uid : String
  phase : String
  deriving DecidableEq

/-- Row of the `container_logs` table. -/
structure ContainerLogRow where
  namespace_ : String
  podName : String
  containerName : String
  logs : String
  deriving DecidableEq

/-- Row of the `pod_metrics` table. -/
structure PodMetricsRow where
  namespace_ : String
  podName : String
  containerName : String
  timestamp : Int
  cpuUsage : Int
  memoryUsage : Int
  deriving DecidableEq

/-- The tables holding rows owned by a pod: the three tables the delete path
of `PodSync.Sync` targets (`pod`, `container_logs`, `pod_metrics`) and the
Prometheus telemetry tables keyed to the pod's derived identifier
(`prometheus_pod_metric`, `prometheus_container_metric`), which no statement
of the repository ever deletes. -/
structure PodStore where
  pods : List PodRow
  containerLogs : List ContainerLogRow
  podMetrics : List PodMetricsRow
  promPodMetrics : List PrometheusPodMetric
  promContainerMetrics : List PrometheusContainerMetric
  deriving DecidableEq

/-- `cache.SplitMetaNamespaceKey` from client-go: a key without a slash is a
bare name with empty namespace, `ns/name` splits into the two parts, more
than one slash is an error. -/
def splitSlash : List Char → List (List Char)
  | [] => [[]]
  | c :: rest =>
      match splitSlash rest with
      | [] => [[c]]
      | h :: t => if c = '/' then [] :: h :: t else (c :: h) :: t

def splitMetaNamespaceKey (key : String) : Except String (String × String) :=
  match (splitSlash key.data).map String.mk with
  | [name] => Except.ok ("", name)
  | [ns, name] => Except.ok (ns, name)
  | _ => Except.error ("unexpected key format: " ++ key)

/-- Order of the tables named by the three DELETE statements of the
`!exists` branch of `PodSync.Sync` (part_000 lines 76-89), in the order the
statements are executed. -/
def podDeleteStatementOrder : List String := ["pod", "container_logs", "pod_metrics"]

/-- The `!exists` branch of `PodSync.Sync` (part_000 lines 68-90): split the
key, then delete the pod row, container log rows and pod metrics rows
matching the namespace and name. The branch issues no statement against the
`prometheus_pod_metric` or `prometheus_container_metric` tables (no code in
the repository deletes from them; `PromMetricSync.Run` only upserts), so
those tables pass through unchanged. -/
def podSyncDelete (key : String) (st : PodStore) : Except String PodStore :=
  match splitMetaNamespaceKey key with
  | Except.error e => Except.error e
  | Except.ok (ns, name) =>
      Except.ok
        { pods := st.pods.filter (fun r => !(r.namespace_ == ns && r.name == name)),
          containerLogs :=
            st.containerLogs.filter (fun r => !(r.namespace_ == ns && r.podName == name)),
          podMetrics :=
            st.podMetrics.filter (fun r => !(r.namespace_ == ns && r.podName == name)),
          promPodMetrics := st.promPodMetrics,
          promContainerMetrics := st.promContainerMetrics }

/-- A container listed in the pod spec. -/
structure ContainerSpec where
  name : String
  deriving DecidableEq

/-- Per-container usage as returned by the pod-metrics API. -/
structure ContainerMetrics where
  name : String
  deriving DecidableEq

/-- The outcomes of the external calls the upsert branch of `PodSync.Sync`
performs, in the order the branch makes them: the object-to-row mapping
(`NewPodFromK8s`), the pod upsert against the store, the per-container log
sync, the pod-metrics API call, and the per-container metrics sync. -/
structure PodUpsertEnv where
  mapResult : Except String PodRow
  upsertPodDb : Except String Unit
  containers : List ContainerSpec
  logsSync : ContainerSpec → Except String Unit
  metricsGet : Except String (List ContainerMetrics)
  metricsSync : ContainerMetrics → Except String Unit

/-- Run an effectful step for each element, stopping at the first error, as
the Go loops at part_000 lines 107-111 and 115-119 do. -/
def forEachUntilErr {α : Type} (f : α → Except String Unit) : List α → Except String Unit
  | [] => Except.ok ()
  | x :: xs =>
      match f x with
      | Except.error e => Except.error e
      | Except.ok _ => forEachUntilErr f xs

/-- The `exists` branch of `PodSync.Sync` (part_000 lines 90-120), translated
call for call. At line 113 the error of the pod-metrics Get is assigned but
never examined; the typed client returns a zero-valued object alongside the
error, so in the error case the loop ranges over no containers and the
branch falls through to `return nil`. -/
def podSyncUpsert (env : PodUpsertEnv) : Except String Unit :=
  match env.mapResult with
  | Except.error e => Except.error e
  | Except.ok _pod =>
      match env.upsertPodDb with
      | Except.error e => Except.error e
      | Except.ok _ =>
          match forEachUntilErr env.logsSync env.containers with
          | Except.error e => Except.error e
          | Except.ok _ =>
              let metricContainers :=
                match env.metricsGet with
                | Except.ok cs => cs
                | Except.error _ => []
              forEachUntilErr env.metricsSync metricContainers

/-! ## Concrete inputs used by counterexamples and witnesses -/

/-- A container-granularity query descriptor of the configured list. -/
def qContainerCpuRequest : PromQuery :=
  { metricCategory := "cpu.request",
    query := "sum by (node, namespace, pod, container) (kube_pod_container_resource_requests)",
    nameLabel := "" }

/-- A cluster-granularity query descriptor of the configured list. -/
def qNodeCount : PromQuery :=
  { metricCategory := "node.count",
    query := "count(group by (node) (kube_node_info))",
    nameLabel := "" }

/-- A pod-granularity query descriptor of the configured list. -/
def qPodCpuUsage : PromQuery :=
  { metricCategory := "cpu.usage",
    query := "sum by (node, namespace, pod) (rate(container_cpu_usage_seconds_total))",
    nameLabel := "" }

/-- A numeric series carrying no labels at all. -/
def sNoLabels : Sample :=
  { metric := fun _ => "", value := { isNaN := false, bits := 2 }, timestampNs := 120000000000 }

/-- A numeric series attributed to pod `default/web-1`. -/
def sWeb1 : Sample :=
  { metric := fun l => if l == "namespace" then "default" else if l == "pod" then "web-1" else "",
    value := { isNaN := false, bits := 4 }, timestampNs := 60000000000 }

/-- The pod metric record the pod poller emits for `sWeb1`. -/
def rWeb1 : PrometheusPodMetric :=
  { podId := sha1 (strBytes ("default" ++ "/" ++ "web-1")),
    timestamp := truncTimestampMs 60000000000, category := "cpu.usage", name := "",
    value := { isNaN := false, bits := 4 } }

/-- A numeric series with no labels and timestamp zero. -/
def sFlat : Sample :=
  { metric := fun _ => "", value := { isNaN := false, bits := 3 }, timestampNs := 0 }

/-- The cluster metric record the cluster poller emits for `sFlat`. -/
def rFlat : PrometheusClusterMetric :=
  { clusterId := sha1 (strBytes ""), timestamp := truncTimestampMs 0,
    category := "node.count", name := "", value := { isNaN := false, bits := 3 } }

/-- The pod row of `default/web-1`. -/
def podWeb1 : PodRow := { namespace_ := "default", name := "web-1", uid := "u1", phase := "running" }

/-- A container log row of `default/web-1`. -/
def logWeb1 : ContainerLogRow :=
  { namespace_ := "default", podName := "web-1", containerName := "app", logs := "started" }

/-- A container log row of another pod, `default/web-2`. -/
def logWeb2 : ContainerLogRow :=
  { namespace_ := "default", podName := "web-2", containerName := "app", logs := "started" }

/-- A pod metrics row of `default/web-1`. -/
def pmWeb1 : PodMetricsRow :=
  { namespace_ := "default", podName := "web-1", containerName := "app",
    timestamp := 0, cpuUsage := 1, memoryUsage := 2 }

/-- A store holding rows of `default/web-1` (including a Prometheus
telemetry row keyed to its derived identifier) and one log row of
`default/web-2`. -/
def storeBefore : PodStore :=
  { pods := [podWeb1], containerLogs := [logWeb1, logWeb2], podMetrics := [pmWeb1],
    promPodMetrics := [rWeb1], promContainerMetrics := [] }

/-- The store after the delete notification for `default/web-1`. -/
def storeAfter : PodStore :=
  { pods := [], containerLogs := [logWeb2], podMetrics := [],
    promPodMetrics := [rWeb1], promContainerMetrics := [] }

/-- An upsert environment in which only the pod-metrics API call fails. -/
def envMetricsGetFails : PodUpsertEnv :=
  { mapResult := Except.ok podWeb1,
    upsertPodDb := Except.ok (),
    containers := [{ name := "app" }],
    logsSync := fun _ => Except.ok (),
    metricsGet := Except.error "pod metrics api unavailable",
    metricsSync := fun _ => Except.ok () }

/-- A raw PVC whose spec has a VolumeMode but no StorageClassName. -/
def pvcGuardMismatch : K8sPvc :=
  { namespace_ := "default", name := "data-1", uid := "u2", phase := "Bound",
    volumeName := "pv-1", volumeMode := some "Filesystem", storageClassName := none,
    conditions := [], labels := [] }

/-- A raw PVC whose spec has a StorageClassName but no VolumeMode. -/
def pvcClassOnly : K8sPvc :=
  { namespace_ := "default", name := "data-2", uid := "u4", phase := "Bound",
    volumeName := "pv-3", volumeMode := none, storageClassName := some "fast-ssd",
    conditions := [], labels := [] }

/-- The raw pod-backing PVC object `default/web-1` with no labels. -/
def kWebClaim : K8sPvc :=
  { namespace_ := "default", name := "web-1", uid := "u1", phase := "Running",
    volumeName := "", volumeMode := none, storageClassName := none,
    conditions := [], labels := [] }

/-- The primary entity `Pvc.obtain` produces for `kWebClaim`. -/
def pWebClaim : Pvc :=
  { meta := { namespace_ := "default", name := "web-1", uid := "u1" },
    id := checksum (strBytes ("default" ++ "/" ++ "web-1")),
    phase := "running", volumeName := "", volumeMode := "", storageClass := "",
    conditions := [], labels := [], pvcLabels := [] }

/-- A raw PVC with two labels, listed in one Go map iteration order. -/
def kTwoLabelsA : K8sPvc :=
  { namespace_ := "default", name := "cache-1", uid := "u3", phase := "Bound",
    volumeName := "pv-2", volumeMode := none, storageClassName := none,
    conditions := [], labels := [("app", "web"), ("tier", "db")] }

/-- The same raw PVC with its label map iterated in the other order. -/
def kTwoLabelsB : K8sPvc := { kTwoLabelsA with labels := [("tier", "db"), ("app", "web")] }

/-- The entity obtained from `kTwoLabelsA`. -/
def pTwoA : Pvc :=
  { meta := { namespace_ := "default", name := "cache-1", uid := "u3" },
    id := checksum (strBytes ("default" ++ "/" ++ "cache-1")),
    phase := "bound", volumeName := "pv-2", volumeMode := "", storageClass := "",
    conditions := [],
    labels := [{ id := checksum (strBytes (lowerStr ("app" ++ ":" ++ "web"))),
                 name := "app", value := "web" },
               { id := checksum (strBytes (lowerStr ("tier" ++ ":" ++ "db"))),
                 name := "tier", value := "db" }],
    pvcLabels := [{ pvcId := checksum (strBytes ("default" ++ "/" ++ "cache-1")),
                    labelId := checksum (strBytes (lowerStr ("app" ++ ":" ++ "web"))) },
                  { pvcId := checksum (strBytes ("default" ++ "/" ++ "cache-1")),
                    labelId := checksum (strBytes (lowerStr ("tier" ++ ":" ++ "db"))) }] }

/-- The entity obtained from `kTwoLabelsB`. -/
def pTwoB : Pvc :=
  { pTwoA with
    labels := [{ id := checksum (strBytes (lowerStr ("tier" ++ ":" ++ "db"))),
                 name := "tier", value := "db" },
               { id := checksum (strBytes (lowerStr ("app" ++ ":" ++ "web"))),
                 name := "app", value := "web" }],
    pvcLabels := [{ pvcId := checksum (strBytes ("default" ++ "/" ++ "cache-1")),
                    labelId := checksum (strBytes (lowerStr ("tier" ++ ":" ++ "db"))) },
                  { pvcId := checksum (strBytes ("default" ++ "/" ++ "cache-1")),
                    labelId := checksum (strBytes (lowerStr ("app" ++ ":" ++ "web"))) }] }

/-- A primary PVC entity with one condition, one label and one association. -/
def pvcD9 : Pvc :=
  { meta := { namespace_ := "default", name := "data-9", uid := "u9" },
    id := [7, 7], phase := "bound", volumeName := "pv-9", volumeMode := "", storageClass := "",
    conditions := [{ pvcId := [7, 7], type_ := "resizing", status := "True",
                     lastProbe := 0, lastTransition := 0, reason := "", message := "" }],
    labels := [{ id := [1], name := "app", value := "web" }],
    pvcLabels := [{ pvcId := [7, 7], labelId := [1] }] }

/-- A pre-existing label dictionary row of another resource. -/
def labelProd : Label := { id := [2], name := "env", value := "prod" }

/-- Dependent-relation tables holding stale rows of `pvcD9` (and one row of a
different PVC) before the resync, plus the foreign dictionary row. -/
def relStore9 : PvcRelStore :=
  { pvcConditions := [{ pvcId := [7, 7], type_ := "stale", status := "False",
                        lastProbe := 0, lastTransition := 0, reason := "", message := "" },
                      { pvcId := [9], type_ := "other", status := "True",
                        lastProbe := 0, lastTransition := 0, reason := "", message := "" }],
    labels := [labelProd],
    pvcLabels := [{ pvcId := [7, 7], labelId := [2] }] }

/-! ## Helper lemmas -/

theorem length_filterMap_eq_length_filter {α β : Type} (f : α → Option β) (p : α → Bool)
    (h : ∀ a, (f a).isSome = p a) (l : List α) :
    (l.filterMap f).length = (l.filter p).length := by
  induction l with
  | nil => rfl
  | cons a t ih =>
    have hp := h a
    cases hfa : f a with
    | none =>
      rw [hfa] at hp
      simp only [Option.isSome_none] at hp
      simp [List.filterMap_cons, List.filter_cons, hfa, ← hp, ih]
    | some b =>
      rw [hfa] at hp
      simp only [Option.isSome_some] at hp
      simp [List.filterMap_cons, List.filter_cons, hfa, ← hp, ih]

theorem truncTimestampMs_eq (t : Int) : truncTimestampMs t = 60000 * t.tdiv 60000000000 := by
  unfold truncTimestampMs
  have hsub : t - Int.tmod t 60000000000 = 60000000000 * t.tdiv 60000000000 := by
    have hdm := Int.tdiv_add_tmod t 60000000000
    omega
  rw [hsub, show (60000000000 : Int) = 1000000 * 60000 by norm_num, Int.mul_assoc]
  exact Int.mul_tdiv_cancel_left _ (by norm_num)

theorem truncTimestampMs_of_nonneg (t : Int) (h : 0 ≤ t) :
    truncTimestampMs t = 60000 * (t / 60000000000) := by
  rw [truncTimestampMs_eq, Int.tdiv_eq_ediv h (by norm_num)]

theorem emitCluster_some_eq {q : PromQuery} {s : Sample} {r : PrometheusClusterMetric}
    (h : emitCluster q s = some r) :
    r = { clusterId := sha1 (strBytes ""), timestamp := truncTimestampMs s.timestampNs,
          category := q.metricCategory, name := nameOf q s, value := s.value } := by
  unfold emitCluster at h
  split at h
  · exact Option.noConfusion h
  · exact (Option.some.inj h).symm

theorem emitNode_some_eq {q : PromQuery} {s : Sample} {r : PrometheusNodeMetric}
    (h : emitNode q s = some r) :
    r = { nodeId := sha1 (strBytes
            (if s.metric "node" == "" then s.metric "instance" else s.metric "node")),
          timestamp := truncTimestampMs s.timestampNs,
          category := q.metricCategory, name := nameOf q s, value := s.value } := by
  unfold emitNode at h
  split at h
  · exact Option.noConfusion h
  · exact (Option.some.inj h).symm

theorem emitPod_some_eq {q : PromQuery} {s : Sample} {r : PrometheusPodMetric}
    (h : emitPod q s = some r) :
    r = { podId := sha1 (strBytes (s.metric "namespace" ++ "/" ++ s.metric "pod")),
          timestamp := truncTimestampMs s.timestampNs,
          category := q.metricCategory, name := nameOf q s, value := s.value } := by
  unfold emitPod at h
  split at h
  · exact Option.noConfusion h
  · split at h
    · exact Option.noConfusion h
    · exact (Option.some.inj h).symm

theorem emitContainer_some_eq {q : PromQuery} {s : Sample} {r : PrometheusContainerMetric}
    (h : emitContainer q s = some r) :
    r = { containerId := sha1 (strBytes
            (s.metric "namespace" ++ "/" ++ s.metric "pod" ++ "/" ++ s.metric "container")),
          timestamp := truncTimestampMs s.timestampNs,
          category := q.metricCategory, name := nameOf q s, value := s.value } := by
  unfold emitContainer at h
  split at h
  · exact Option.noConfusion h
  · exact (Option.some.inj h).symm

theorem filter_replaceByFk {α : Type} (fkOf : α → List Nat) (pid : List Nat)
    (old new : List α) (h : ∀ r ∈ new, fkOf r = pid) :
    (replaceByFk fkOf pid old new).filter (fun r => fkOf r == pid) = new := by
  unfold replaceByFk
  rw [List.filter_append]
  have h1 : (old.filter (fun r => !(fkOf r == pid))).filter (fun r => fkOf r == pid) = [] := by
    induction old with
    | nil => rfl
    | cons a t ih =>
      by_cases ha : fkOf a = pid <;> simp [List.filter_cons, ha, ih]
  have h2 : new.filter (fun r => fkOf r == pid) = new :=
    List.filter_eq_self.mpr (fun a haa => by simp [h a haa])
  rw [h1, h2, List.nil_append]

theorem mem_replaceByFk {α : Type} (fkOf : α → List Nat) (pid : List Nat)
    (old new : List α) (l : α) (hl : l ∈ old) (hne : fkOf l ≠ pid) :
    l ∈ replaceByFk fkOf pid old new := by
  unfold replaceByFk
  exact List.mem_append_left _ (List.mem_filter.mpr ⟨hl, by simp [hne]⟩)

/-! ## Claim theorems -/

/-- C1 (counterexample): a container-granularity series with a numeric value
but no `container` label (indeed no labels at all) is not skipped: the
container poll cycle still produces one telemetry record for it, contrary to
the claim that a series missing the label naming its owning entity never
produces a record. -/
theorem c1_missing_label_counterexample :
    sNoLabels.metric "container" = "" ∧ sNoLabels.value.isNaN = false ∧
    (processContainer qContainerCpuRequest [sNoLabels]).length = 1 :=
  ⟨rfl, rfl, rfl⟩

/-- C1 (amended): for every poll cycle, a series whose value is NaN is
skipped at every granularity; a pod-granularity series whose `pod` label is
missing is skipped; the node granularity falls back from the `node` label to
the `instance` label and emits a record even when both are missing, and the
container granularity emits a record whether or not its labels are present;
every series that is not skipped produces exactly one record. -/
theorem c1_skip_rules (q : PromQuery) (ss : List Sample) :
    (processCluster q ss).length = (ss.filter (fun s => !s.value.isNaN)).length ∧
    (processNode q ss).length = (ss.filter (fun s => !s.value.isNaN)).length ∧
    (processPod q ss).length =
      (ss.filter (fun s => !s.value.isNaN && !(s.metric "pod" == ""))).length ∧
    (processContainer q ss).length = (ss.filter (fun s => !s.value.isNaN)).length := by
  refine ⟨?_, ?_, ?_, ?_⟩
  · exact length_filterMap_eq_length_filter _ _
      (fun s => by by_cases h : s.value.isNaN <;> simp [emitCluster, h]) ss
  · exact length_filterMap_eq_length_filter _ _
      (fun s => by by_cases h : s.value.isNaN <;> simp [emitNode, h]) ss
  · exact length_filterMap_eq_length_filter _ _
      (fun s => by
        by_cases h : s.value.isNaN <;> by_cases hp : s.metric "pod" = "" <;>
          simp [emitPod, h, hp]) ss
  · exact length_filterMap_eq_length_filter _ _
      (fun s => by by_cases h : s.value.isNaN <;> simp [emitContainer, h]) ss

/-- C2 (counterexample): the delete path of `PodSync.Sync` violates the
claim twice over. First, it does not delete children before the parent: the
DELETE against the parent `pod` table is executed before the DELETE against
the dependent `container_logs` table. Second, it is false that afterwards no
table holds a row for the key: deleting `default/web-1` from a store that
holds a `prometheus_pod_metric` telemetry row keyed to that pod's derived
identifier (the SHA-1 of `default/web-1`) leaves that telemetry row in
place, because the branch issues no DELETE against the Prometheus telemetry
tables. -/
theorem c2_delete_counterexample :
    ¬ (podDeleteStatementOrder.indexOf "container_logs" <
        podDeleteStatementOrder.indexOf "pod") ∧
    podSyncDelete "default/web-1" storeBefore = Except.ok storeAfter ∧
    rWeb1.podId = sha1 (strBytes ("default" ++ "/" ++ "web-1")) ∧
    rWeb1 ∈ storeAfter.promPodMetrics :=
  ⟨by decide, rfl, rfl, List.mem_singleton_self rWeb1⟩

/-- C2 (amended): a delete notification for a pod key removes the primary
pod row and every container log and pod metrics row keyed to that pod's
namespace and name, with the parent `pod` DELETE executed first and the
child-table DELETEs after it; afterwards none of those three tables holds a
row for that key, but the Prometheus telemetry tables keyed to the pod's
derived identifier are not touched by the path and their rows survive. -/
theorem c2_delete_removes_rows (key ns name : String) (st st2 : PodStore)
    (hsplit : splitMetaNamespaceKey key = Except.ok (ns, name))
    (hdel : podSyncDelete key st = Except.ok st2) :
    (∀ r ∈ st2.pods, ¬(r.namespace_ = ns ∧ r.name = name)) ∧
    (∀ r ∈ st2.containerLogs, ¬(r.namespace_ = ns ∧ r.podName = name)) ∧
    (∀ r ∈ st2.podMetrics, ¬(r.namespace_ = ns ∧ r.podName = name)) ∧
    st2.promPodMetrics = st.promPodMetrics ∧
    st2.promContainerMetrics = st.promContainerMetrics ∧
    podDeleteStatementOrder.indexOf "pod" <
      podDeleteStatementOrder.indexOf "container_logs" ∧
    podDeleteStatementOrder.indexOf "container_logs" <
      podDeleteStatementOrder.indexOf "pod_metrics" := by
  unfold podSyncDelete at hdel
  rw [hsplit] at hdel
  cases hdel
  refine ⟨?_, ?_, ?_, rfl, rfl, by decide, by decide⟩ <;>
    · intro r hr
      have hpred := List.of_mem_filter hr
      simp only [Bool.not_eq_eq_eq_not, Bool.not_true, Bool.and_eq_false_imp,
        beq_iff_eq] at hpred
      intro hcon
      rcases hcon with ⟨h1, h2⟩
      simp [h1, h2] at hpred

/-- C2 (witness): deleting key `default/web-1` from a store holding its pod
row, its container log row, its pod metrics row, a Prometheus telemetry row
keyed to its derived identifier and a log row of another pod leaves no row
for that key in the three targeted tables while the telemetry table is
unchanged. -/
theorem c2_delete_removes_rows_witness :
    (∀ r ∈ storeAfter.pods, ¬(r.namespace_ = "default" ∧ r.name = "web-1")) ∧
    (∀ r ∈ storeAfter.containerLogs, ¬(r.namespace_ = "default" ∧ r.podName = "web-1")) ∧
    (∀ r ∈ storeAfter.podMetrics, ¬(r.namespace_ = "default" ∧ r.podName = "web-1")) ∧
    storeAfter.promPodMetrics = storeBefore.promPodMetrics ∧
    storeAfter.promContainerMetrics = storeBefore.promContainerMetrics ∧
    podDeleteStatementOrder.indexOf "pod" <
      podDeleteStatementOrder.indexOf "container_logs" ∧
    podDeleteStatementOrder.indexOf "container_logs" <
      podDeleteStatementOrder.indexOf "pod_metrics" :=
  c2_delete_removes_rows "default/web-1" "default" "web-1" storeBefore storeAfter rfl rfl

/-- C3: every emitted record of every granularity stores the sample
timestamp truncated to the minute; the stored value is a multiple of 60000
milliseconds, equals the sample's nanosecond timestamp rounded down to the
enclosing minute boundary expressed in milliseconds, and any two pod samples
with the same labels whose timestamps fall in the same minute map to the
same record key. -/
theorem c3_minute_truncation :
    (∀ q s r, emitCluster q s = some r → r.timestamp = truncTimestampMs s.timestampNs) ∧
    (∀ q s r, emitNode q s = some r → r.timestamp = truncTimestampMs s.timestampNs) ∧
    (∀ q s r, emitPod q s = some r → r.timestamp = truncTimestampMs s.timestampNs) ∧
    (∀ q s r, emitContainer q s = some r → r.timestamp = truncTimestampMs s.timestampNs) ∧
    (∀ t : Int, (60000 : Int) ∣ truncTimestampMs t) ∧
    (∀ t : Int, 0 ≤ t → truncTimestampMs t = 60000 * (t / 60000000000)) ∧
    (∀ q s1 s2 r1 r2, emitPod q s1 = some r1 → emitPod q s2 = some r2 →
      s1.metric = s2.metric → 0 ≤ s1.timestampNs → 0 ≤ s2.timestampNs →
      s1.timestampNs / 60000000000 = s2.timestampNs / 60000000000 →
      podMetricKey r1 = podMetricKey r2) := by
  refine ⟨?_, ?_, ?_, ?_, ?_, ?_, ?_⟩
  · intro q s r h; rw [emitCluster_some_eq h]
  · intro q s r h; rw [emitNode_some_eq h]
  · intro q s r h; rw [emitPod_some_eq h]
  · intro q s r h; rw [emitContainer_some_eq h]
  · intro t; exact ⟨t.tdiv 60000000000, truncTimestampMs_eq t⟩
  · exact truncTimestampMs_of_nonneg
  · intro q s1 s2 r1 r2 h1 h2 hm ht1 ht2 hmin
    have e1 := emitPod_some_eq h1
    have e2 := emitPod_some_eq h2
    have htr : truncTimestampMs s1.timestampNs = truncTimestampMs s2.timestampNs := by
      rw [truncTimestampMs_of_nonneg _ ht1, truncTimestampMs_of_nonneg _ ht2, hmin]
    rw [e1, e2]
    simp [podMetricKey, nameOf, hm, htr]

/-- C3 (witness): a sample timestamp of 90 seconds in nanoseconds is stored
as the 60000-millisecond minute boundary. -/
theorem c3_minute_truncation_witness :
    truncTimestampMs 90000000000 = 60000 * ((90000000000 : Int) / 60000000000) :=
  c3_minute_truncation.2.2.2.2.2.1 90000000000 (by decide)

/-- C4 (code bug): when the pod-metrics API call of the upsert branch fails
and every other step succeeds, `Sync` returns no error: the error assigned
at part_000 line 113 is never examined, the loop ranges over the zero-valued
result, and the branch returns nil — the claim that every source-API error
is surfaced as the return value is violated by the code. -/
theorem c4_metrics_error_swallowed :
    envMetricsGetFails.metricsGet = Except.error "pod metrics api unavailable" ∧
    podSyncUpsert envMetricsGetFails = Except.ok () :=
  ⟨rfl, rfl⟩

/-- C5 (code bug): `Pvc.Obtain` guards the dereference of
`pvc.Spec.StorageClassName` with `pvc.Spec.VolumeMode != nil`, so a raw
object with a VolumeMode and no StorageClassName reaches the nil
dereference (the failure case of the embedding), and a raw object with a
StorageClassName but no VolumeMode does not get its StorageClass populated
— contrary to the claim that the failure branch is unreachable and that
StorageClass is populated whenever StorageClassName is present. -/
theorem c5_nil_dereference_reachable :
    pvcGuardMismatch.volumeMode = some "Filesystem" ∧
    pvcGuardMismatch.storageClassName = none ∧
    Pvc.obtain pvcGuardMismatch = none ∧
    pvcClassOnly.storageClassName = some "fast-ssd" ∧
    (Pvc.obtain pvcClassOnly).map Pvc.storageClass = some "" :=
  ⟨rfl, rfl, rfl, rfl, rfl⟩

/-- C6 (counterexample): an iteration whose query succeeds but returns a nil
result does not end by waiting for the 55-second interval or cancellation:
it prints and re-queries immediately via `continue`, contrary to the claim
that every iteration ends in the wait. -/
theorem c6_nil_result_counterexample :
    (pollIteration (processCluster qNodeCount) QueryOutcome.nilResult).ending ≠
      IterEnd.sleepOrCancel 55 := by decide

/-- C6 (amended): an iteration whose query fails ends the task with that
error; an iteration whose query returns a nil result re-queries immediately
without waiting; every other iteration — including one whose returned
vector is empty, which emits nothing — ends by waiting for the fixed
55-second poll interval or for cancellation, whichever comes first. -/
theorem c6_iteration_ending {R : Type} (process : List Sample → List R)
    (e : String) (ss : List Sample) :
    (pollIteration process (QueryOutcome.failed e)).ending = IterEnd.queryError e ∧
    (pollIteration process QueryOutcome.nilResult).ending = IterEnd.retryNoWait ∧
    (pollIteration process (QueryOutcome.vector ss)).ending = IterEnd.sleepOrCancel 55 ∧
    (pollIteration process (QueryOutcome.vector ss)).emitted = process ss :=
  ⟨rfl, rfl, rfl, rfl⟩

/-- C7: the PVC mapping path derives its identifier as the hash of
`namespace/name`, the pod metrics-attribution path as the hash of
`namespace/pod`, the container path as the hash of
`namespace/pod/container`, all joined by the `/` separator and hashed with
the same SHA-1; for the same namespace and name the mapping path and the
metrics-attribution path compute the same identifier. -/
theorem c7_identifier_paths :
    (∀ (k : K8sPvc) (p : Pvc), Pvc.obtain k = some p →
      p.id = sha1 (strBytes (k.namespace_ ++ "/" ++ k.name))) ∧
    (∀ q s r, emitPod q s = some r →
      r.podId = sha1 (strBytes (s.metric "namespace" ++ "/" ++ s.metric "pod"))) ∧
    (∀ q s r, emitContainer q s = some r →
      r.containerId = sha1 (strBytes
        (s.metric "namespace" ++ "/" ++ s.metric "pod" ++ "/" ++ s.metric "container"))) ∧
    (∀ (k : K8sPvc) (p : Pvc) q s r, Pvc.obtain k = some p → emitPod q s = some r →
      s.metric "namespace" = k.namespace_ → s.metric "pod" = k.name → p.id = r.podId) := by
  have hobt : ∀ (k : K8sPvc) (p : Pvc), Pvc.obtain k = some p →
      p.id = sha1 (strBytes (k.namespace_ ++ "/" ++ k.name)) := by
    intro k p h
    unfold Pvc.obtain at h
    split at h
    · rw [← Option.some.inj h]; rfl
    · exact Option.noConfusion h
    · rw [← Option.some.inj h]; rfl
  refine ⟨hobt, ?_, ?_, ?_⟩
  · intro q s r h; rw [emitPod_some_eq h]
  · intro q s r h; rw [emitContainer_some_eq h]
  · intro k p q s r hk hs hns hpd
    rw [hobt k p hk, emitPod_some_eq hs, hns, hpd]

/-- C7 (witness): the entity obtained for the raw pod-backing object
`default/web-1` and the pod metric record emitted for a series labelled
`namespace=default, pod=web-1` carry the same identifier. -/
theorem c7_identifier_paths_witness : pWebClaim.id = rWeb1.podId :=
  c7_identifier_paths.2.2.2 kWebClaim pWebClaim qPodCpuUsage sWeb1 rWeb1 rfl rfl rfl rfl

/-- C8 (counterexample): the same raw object whose two-entry label map is
iterated in the two possible orders maps to entities whose `Labels`
collections differ (and hence to unequal mapping results), contrary to the
claim that two runs of the mapping yield identical dependent collections. -/
theorem c8_label_order_counterexample :
    kTwoLabelsA.labels.Perm kTwoLabelsB.labels ∧
    (Pvc.obtain kTwoLabelsA).map (fun p => p.labels.map Label.name) = some ["app", "tier"] ∧
    (Pvc.obtain kTwoLabelsB).map (fun p => p.labels.map Label.name) = some ["tier", "app"] ∧
    Pvc.obtain kTwoLabelsA ≠ Pvc.obtain kTwoLabelsB :=
  ⟨List.Perm.swap _ _ _, rfl, rfl,
   fun h => absurd (congrArg (Option.map (fun p => p.labels.map Label.name)) h) (by decide)⟩

/-- C8 (amended): mapping the same raw object under two iteration orders of
its label map succeeds or fails identically and yields identical derived
identifier, meta, phase, volume fields and Conditions; the label-derived
collections (Labels, PvcLabels) agree up to the permutation induced by the
iteration order, but not necessarily as equal lists. -/
theorem c8_obtain_label_order (k : K8sPvc) (ls : List (String × String))
    (hperm : k.labels.Perm ls) :
    ((Pvc.obtain k).isSome ↔ (Pvc.obtain { k with labels := ls }).isSome) ∧
    (∀ p1 p2, Pvc.obtain k = some p1 → Pvc.obtain { k with labels := ls } = some p2 →
      p1.meta = p2.meta ∧ p1.id = p2.id ∧ p1.phase = p2.phase ∧
      p1.volumeName = p2.volumeName ∧ p1.volumeMode = p2.volumeMode ∧
      p1.storageClass = p2.storageClass ∧ p1.conditions = p2.conditions ∧
      p1.labels.Perm p2.labels ∧ p1.pvcLabels.Perm p2.pvcLabels) := by
  cases hvm : k.volumeMode with
  | none =>
    constructor
    · simp [Pvc.obtain, hvm]
    · intro p1 p2 h1 h2
      simp only [Pvc.obtain, hvm] at h1 h2
      rw [← Option.some.inj h1, ← Option.some.inj h2]
      exact ⟨rfl, rfl, rfl, rfl, rfl, rfl, rfl, hperm.map _, hperm.map _⟩
  | some vm =>
    cases hsc : k.storageClassName with
    | none =>
      constructor
      · simp [Pvc.obtain, hvm, hsc]
      · intro p1 p2 h1 h2
        simp only [Pvc.obtain, hvm, hsc] at h1
        exact Option.noConfusion h1
    | some sc =>
      constructor
      · simp [Pvc.obtain, hvm, hsc]
      · intro p1 p2 h1 h2
        simp only [Pvc.obtain, hvm, hsc] at h1 h2
        rw [← Option.some.inj h1, ← Option.some.inj h2]
        exact ⟨rfl, rfl, rfl, rfl, rfl, rfl, rfl, hperm.map _, hperm.map _⟩

/-- C8 (witness): the entities obtained from the two iteration orders of the
two-label object agree on every scalar field and are label-permutations of
each other. -/
theorem c8_obtain_label_order_witness :
    pTwoA.meta = pTwoB.meta ∧ pTwoA.id = pTwoB.id ∧ pTwoA.phase = pTwoB.phase ∧
    pTwoA.volumeName = pTwoB.volumeName ∧ pTwoA.volumeMode = pTwoB.volumeMode ∧
    pTwoA.storageClass = pTwoB.storageClass ∧ pTwoA.conditions = pTwoB.conditions ∧
    pTwoA.labels.Perm pTwoB.labels ∧ pTwoA.pvcLabels.Perm pTwoB.pvcLabels :=
  (c8_obtain_label_order kTwoLabelsA [("tier", "db"), ("app", "web")]
    (List.Perm.swap _ _ _)).2 pTwoA pTwoB rfl rfl

/-- C9: `Pvc.Relations` declares the condition and label-association sets
under foreign key `pvc_id` and the shared label dictionary under its own
`value` column; under the replace-by-foreign-key step the rows keyed to the
entity in `pvc_condition` and `pvc_label` are exactly the latest set, while
every pre-existing dictionary row (whose `value` content does not collide
with the entity identifier) survives the resync. -/
theorem c9_label_dictionary_preserved :
    (∀ p : Pvc, Pvc.relations p =
      [RelationDecl.conditions p.conditions "pvc_id",
       RelationDecl.labels p.labels "value",
       RelationDecl.pvcLabels p.pvcLabels "pvc_id"]) ∧
    (∀ (p : Pvc) (st : PvcRelStore), (∀ r ∈ p.conditions, r.pvcId = p.id) →
      (pvcSyncRelations p st).pvcConditions.filter (fun r => r.pvcId == p.id) =
        p.conditions) ∧
    (∀ (p : Pvc) (st : PvcRelStore), (∀ r ∈ p.pvcLabels, r.pvcId = p.id) →
      (pvcSyncRelations p st).pvcLabels.filter (fun r => r.pvcId == p.id) = p.pvcLabels) ∧
    (∀ (p : Pvc) (st : PvcRelStore) (l : Label),
      l ∈ st.labels → strBytes l.value ≠ p.id → l ∈ (pvcSyncRelations p st).labels) := by
  refine ⟨fun p => rfl, ?_, ?_, ?_⟩
  · intro p st h
    exact filter_replaceByFk PvcCondition.pvcId p.id st.pvcConditions p.conditions h
  · intro p st h
    exact filter_replaceByFk PvcLabel.pvcId p.id st.pvcLabels p.pvcLabels h
  · intro p st l hl hne
    exact mem_replaceByFk _ p.id st.labels p.labels l hl hne

/-- C9 (witness): resyncing `pvcD9` against a store with stale rows leaves
exactly its current condition set under its key and keeps the foreign
dictionary row `labelProd`. -/
theorem c9_label_dictionary_preserved_witness :
    (pvcSyncRelations pvcD9 relStore9).pvcConditions.filter
      (fun r => r.pvcId == pvcD9.id) = pvcD9.conditions ∧
    labelProd ∈ (pvcSyncRelations pvcD9 relStore9).labels :=
  ⟨c9_label_dictionary_preserved.2.1 pvcD9 relStore9 (by decide),
   c9_label_dictionary_preserved.2.2.2 pvcD9 relStore9 labelProd (by decide) (by decide)⟩

/-- C10: every cluster metric record the cluster pollers emit carries the
constant cluster identifier, the SHA-1 digest of the empty string,
regardless of the query or series that produced it. -/
theorem c10_cluster_constant_id :
    (∀ q s r, emitCluster q s = some r → r.clusterId = sha1 (strBytes "")) ∧
    sha1 (strBytes "") =
      [218, 57, 163, 238, 94, 107, 75, 13, 50, 85, 191, 239, 149, 96, 24, 144, 175, 216, 7, 9] := by
  constructor
  · intro q s r h; rw [emitCluster_some_eq h]
  · decide

/-- C10 (witness): the record emitted for an unlabelled numeric series under
the `node.count` query carries the digest of the empty string. -/
theorem c10_cluster_constant_id_witness : rFlat.clusterId = sha1 (strBytes "") :=
  c10_cluster_constant_id.1 qNodeCount sFlat rFlat rfl
